import Mathlib

/-!
Verification of the grammar-ops classification-and-rule engine.

This file gives a shallow embedding of the repository's core logic:

* `src/lib/analyzers/constant_detector.py` — `AssignmentContext`,
  `SmartConstantAnalyzer` (assignment classification, naming checks,
  auto-fixability);
* `src/lib/analyzers/context_analyzer.py` — `FunctionContext`,
  `ContextAwareFunctionAnalyzer` (function classification, verb-prefix
  checks, rename suggestions);
* `src/tools/migrate.py` — `CodeMigrator._suggest_constant_name`
  (the UPPER_CASE casing transform).

Python strings are modelled by Lean `String` / `List Char`; the string
predicates (`in`, `startswith`, `isupper`, …) are re-implemented below with
Python's semantics restricted to the ASCII identifiers the analyzers
process.  Python AST value nodes are modelled by the inductive `PyExpr`,
which records exactly the shape information `constant_detector.py`
inspects via `isinstance`; the unparsed source text of the value is kept
alongside in the `value_str` field, as in the Python constructor.
Fallible parsing is modelled by `Except` (the parser is an external
capability per the spec), and the analyzers' run-scoped counters are
threaded explicitly as state.
-/

namespace GrammarOps

/-- Python list/str prefix test: `listHasPre needle hay` is true when
`needle` is an initial segment of `hay`. -/
def listHasPre : List Char → List Char → Bool
  | [], _ => true
  | _ :: _, [] => false
  | a :: as, b :: bs => a == b && listHasPre as bs

/-- Python substring test on char lists: does `needle` occur contiguously
anywhere in the list? -/
def listHasSub (needle : List Char) : List Char → Bool
  | [] => listHasPre needle []
  | b :: bs => listHasPre needle (b :: bs) || listHasSub needle bs

/-- Python `needle in hay` for strings. -/
def pyIn (needle hay : String) : Bool :=
  listHasSub needle.data hay.data

/-- Python `s.startswith(pre)`. -/
def pyStarts (s pre : String) : Bool :=
  listHasPre pre.data s.data

/-- Python `s.endswith(suf)`. -/
def pyEnds (s suf : String) : Bool :=
  listHasPre suf.data.reverse s.data.reverse

/-- Python `s.lower()` (ASCII). -/
def pyLower (s : String) : String :=
  String.mk (s.data.map Char.toLower)

/-- Python `s.isupper()` for ASCII text: at least one cased character and
no lowercase character (digits and punctuation are not cased). -/
def pyIsUpper (s : String) : Bool :=
  s.data.any Char.isAlpha && s.data.all (fun ch => !ch.isLower)

/-- Python `s.islower()` for ASCII text: at least one cased character and
no uppercase character. -/
def pyIsLower (s : String) : Bool :=
  s.data.any Char.isAlpha && s.data.all (fun ch => !ch.isUpper)

/-- Membership test lifted to an optional string, matching Python's
truthiness of `opt and needle in opt` (both `None` and `""` fail). -/
def optIn (needle : String) : Option String → Bool
  | some s => pyIn needle s
  | none => false

/-- After a matched token: skip whitespace (`\s*` of the regex), then
require the closing character.  Models the `\s*(` / `\s*[` / `\s*=`
tails of the search patterns in `constant_detector.py`. -/
def skipWsThen (after : Char) : List Char → Bool
  | [] => false
  | c :: cs => if c == after then true else if c.isWhitespace then skipWsThen after cs else false

/-- Helper for `searchThen`, scanning every start position of the hay. -/
def searchThenAux (td : List Char) (after : Char) : List Char → Bool
  | [] => false
  | c :: t =>
    (listHasPre td (c :: t) && skipWsThen after ((c :: t).drop td.length))
      || searchThenAux td after t

/-- Model of `re.search(tok + r"\s*" + after, s)` as used by the detector
patterns such as `TypeVar\s*\(`: the token occurs somewhere, followed by
optional whitespace and then the character `after`. -/
def searchThen (tok : String) (after : Char) (s : String) : Bool :=
  searchThenAux tok.data after s.data

/-! ### Assignment-side model (`src/lib/analyzers/constant_detector.py`) -/

/-- Shape of a Python AST value expression, recording exactly the
`isinstance` distinctions `AssignmentContext` makes (`ast.Call`,
`ast.Constant`/`Num`/`Str`, `ast.Dict`, `ast.List`, `ast.Tuple`,
`ast.Set`; anything else is `other`). -/
inductive PyExpr where
  | constant : PyExpr
  | call : PyExpr
  | dict (keys vals : List PyExpr) : PyExpr
  | list (elts : List PyExpr) : PyExpr
  | tuple (elts : List PyExpr) : PyExpr
  | set (elts : List PyExpr) : PyExpr
  | other : PyExpr

/-- Is the node a literal (`ast.Constant`, the deprecated `ast.Num` and
`ast.Str` being aliases of it)? -/
def isConstNode : PyExpr → Bool
  | PyExpr.constant => true
  | _ => false

/-- `AssignmentContext.__init__`: target name, value node, and the
unparsed value source text (`ast.unparse(value_node)` in Python, carried
here as data). -/
structure AssignmentContext where
  target : String
  value_node : PyExpr
  value_str : String
  lineno : Nat
  file_path : String

/-- `AssignmentContext._is_typevar`. -/
def _is_typevar (c : AssignmentContext) : Bool :=
  searchThen "TypeVar" '(' c.value_str ||
  searchThen "ParamSpec" '(' c.value_str ||
  searchThen "TypeVarTuple" '(' c.value_str ||
  searchThen "NewType" '(' c.value_str ||
  searchThen "TypeAlias" '=' c.value_str ||
  searchThen "type" '[' c.value_str

/-- The framework factory names of
`AssignmentContext._is_singleton_instance`. -/
def singletonNames : List String :=
  ["FastAPI", "Flask", "Typer", "APIRouter", "Blueprint", "Celery",
   "Redis", "create_app", "get_app", "declarative_base", "sessionmaker",
   "create_engine"]

/-- `AssignmentContext._is_singleton_instance`: only call expressions are
eligible; the pattern list is searched in the unparsed value text. -/
def _is_singleton_instance (c : AssignmentContext) : Bool :=
  match c.value_node with
  | PyExpr.call => singletonNames.any (fun n => searchThen n '(' c.value_str)
  | _ => false

/-- `AssignmentContext._is_logger`. -/
def _is_logger (c : AssignmentContext) : Bool :=
  pyIn "logging.getLogger" c.value_str ||
  searchThen "get_logger" '(' c.value_str ||
  searchThen "Logger" '(' c.value_str ||
  searchThen "getLogger" '(' c.value_str

/-- The config-ish name tokens of `AssignmentContext._is_config_object`. -/
def configNames : List String :=
  ["config", "settings", "options", "params", "defaults",
   "models", "endpoints", "routes", "urls", "paths"]

/-- `AssignmentContext._is_config_object`: for dict/list values the
decision is made from the target name alone (the Python code returns from
inside the `isinstance` branch); otherwise a `Config(`/`Settings(`
constructor in the value text decides. -/
def _is_config_object (c : AssignmentContext) : Bool :=
  match c.value_node with
  | PyExpr.dict _ _ => configNames.any (fun n => pyIn n (pyLower c.target))
  | PyExpr.list _ => configNames.any (fun n => pyIn n (pyLower c.target))
  | _ => pyIn "Config(" c.value_str || pyIn "Settings(" c.value_str

/-- `AssignmentContext._is_compiled_regex`. -/
def _is_compiled_regex (c : AssignmentContext) : Bool :=
  pyIn "re.compile" c.value_str || pyIn "regex.compile" c.value_str

/-- `AssignmentContext._is_env_var`. -/
def _is_env_var (c : AssignmentContext) : Bool :=
  pyIn "os.environ" c.value_str ||
  pyIn "os.getenv" c.value_str ||
  searchThen "env" '[' c.value_str ||
  searchThen "getenv" '(' c.value_str

/-- `AssignmentContext._is_literal_constant`. -/
def _is_literal_constant (c : AssignmentContext) : Bool :=
  isConstNode c.value_node

/-- `AssignmentContext._is_collection_constant`: every element (for
list/tuple/set), or every key and value (for dict, paired as by Python's
`zip`), is a literal. -/
def _is_collection_constant (c : AssignmentContext) : Bool :=
  match c.value_node with
  | PyExpr.list elts => elts.all isConstNode
  | PyExpr.tuple elts => elts.all isConstNode
  | PyExpr.set elts => elts.all isConstNode
  | PyExpr.dict keys vals =>
    (keys.zip vals).all (fun kv => isConstNode kv.1 && isConstNode kv.2)
  | _ => false

/-- `AssignmentContext._determine_type`, the assignment-side classifier
(first match wins); stored as `assignment_type` at construction time in
Python, derived here. -/
def assignment_type (c : AssignmentContext) : String :=
  if _is_typevar c then "typevar"
  else if _is_singleton_instance c then "singleton"
  else if _is_logger c then "logger"
  else if _is_config_object c then "config"
  else if _is_compiled_regex c then "regex"
  else if _is_env_var c then "env_var"
  else if _is_literal_constant c then "constant"
  else if _is_collection_constant c then "collection_constant"
  else "unknown"

/-- A `SmartConstantAnalyzer.TYPE_RULES` entry (the fields the checking
logic reads: the naming style, plus the human-readable reason; the
static example lists are informational only and elided). -/
structure TypeRule where
  style : String
  reason : String
deriving DecidableEq

/-- `SmartConstantAnalyzer.TYPE_RULES` as a lookup. `"unknown"` is never
looked up (Python would raise `KeyError`); the catch-all row is
unreachable from `_check_assignment`. -/
def typeRules (t : String) : TypeRule :=
  if t == "typevar" then ⟨"single_letter_or_pascal", "TypeVar follows Python typing conventions"⟩
  else if t == "singleton" then ⟨"lowercase", "Singleton instances use lowercase like any variable"⟩
  else if t == "logger" then ⟨"lowercase", "Logger instances are variables, not constants"⟩
  else if t == "config" then ⟨"flexible", "Config can be constant or mutable"⟩
  else if t == "regex" then ⟨"uppercase", "Compiled regexes are typically constants"⟩
  else if t == "env_var" then ⟨"flexible", "Environment variables vary by convention"⟩
  else if t == "constant" then ⟨"uppercase", "True constants should be UPPER_CASE"⟩
  else if t == "collection_constant" then ⟨"uppercase", "Constant collections should be UPPER_CASE"⟩
  else ⟨"", ""⟩

/-- `SmartConstantAnalyzer._is_uppercase`:
`name.isupper() and '_' in name or (name.isupper() and len(name) > 1)`. -/
def _is_uppercase (n : String) : Bool :=
  (pyIsUpper n && n.data.contains '_') || (pyIsUpper n && n.length > 1)

/-- `SmartConstantAnalyzer._is_lowercase`:
`name.islower() or '_' in name and name.replace('_', '').islower()`. -/
def _is_lowercase (n : String) : Bool :=
  pyIsLower n ||
    (n.data.contains '_' && pyIsLower (String.mk (n.data.filter (fun ch => !(ch == '_')))))

/-- `SmartConstantAnalyzer._is_pascal_case`:
`name[0].isupper() and not '_' in name and not name.isupper()`.  Python
would raise `IndexError` on an empty name; identifiers are nonempty, and
the empty case is mapped to `false`. -/
def _is_pascal_case (n : String) : Bool :=
  match n.data with
  | [] => false
  | ch :: _ => ch.isUpper && !(n.data.contains '_') && !(pyIsUpper n)

/-- An issue record produced by `SmartConstantAnalyzer._create_issue`
(the Python dict key `type` is spelled `atype` here). -/
structure ConstIssue where
  file : String
  line : Nat
  name : String
  current_value : String
  atype : String
  issue : String
  rule : TypeRule
  auto_fixable : Bool
deriving DecidableEq

/-- `SmartConstantAnalyzer._can_auto_fix`: a function of the assignment
type alone. -/
def _can_auto_fix (c : AssignmentContext) : Bool :=
  if ["typevar", "singleton", "logger"].contains (assignment_type c) then false
  else if ["constant", "collection_constant", "regex"].contains (assignment_type c) then true
  else false

/-- `SmartConstantAnalyzer._create_issue` (the violation-counter
increment is run-scoped statistics, threaded separately in the
file-level model below). -/
def _create_const_issue (c : AssignmentContext) (rule : TypeRule) (message : String) : ConstIssue :=
  { file := c.file_path
    line := c.lineno
    name := c.target
    current_value :=
      if c.value_str.length > 50 then String.mk (c.value_str.data.take 50) ++ "..."
      else c.value_str
    atype := assignment_type c
    issue := message
    rule := rule
    auto_fixable := _can_auto_fix c }

/-- `SmartConstantAnalyzer._check_assignment`: the violation evaluator
for module-level assignments. -/
def _check_assignment (c : AssignmentContext) : Option ConstIssue :=
  if assignment_type c == "unknown" then none
  else
    let rule := typeRules (assignment_type c)
    if rule.style == "uppercase" then
      if !(_is_uppercase c.target) then some (_create_const_issue c rule "should be UPPER_CASE")
      else none
    else if rule.style == "lowercase" then
      if !(_is_lowercase c.target) then some (_create_const_issue c rule "should be lowercase")
      else none
    else if rule.style == "single_letter_or_pascal" then
      if !(c.target.length == 1 && pyIsUpper c.target) && !(_is_pascal_case c.target) then
        some (_create_const_issue c rule "should be single letter or PascalCase")
      else none
    else none

/-! ### Function-side model (`src/lib/analyzers/context_analyzer.py`) -/

/-- `FunctionContext` after `_analyze`: the name, the decorator strings,
the unparsed return annotation, the docstring (both optional, with
Python's `None`-or-empty falsiness handled at use sites via `optIn` and
an explicit emptiness test), and the enclosing class name set by
`_analyze_node` for methods. -/
structure FunctionContext where
  name : String
  decorators : List String
  returns_type : Option String
  docstring : Option String
  parent_class : Option String
  is_async : Bool
  lineno : Nat
  file_path : String
deriving DecidableEq

/-- `FunctionContext.context_type`: the ordered function classifier
(first match wins). -/
def context_type (c : FunctionContext) : String :=
  if pyStarts c.name "test_" then "test_function"
  else if c.decorators.any (fun d =>
      pyIn "@cli.command" d || pyIn "@app.command" d || pyIn "@click.command" d) then
    "cli_command"
  else if c.decorators.any (fun d => pyIn "@app." d || pyIn "@router." d) then "api_endpoint"
  else if c.decorators.any (fun d => pyIn "@pytest.fixture" d) then "pytest_fixture"
  else if c.decorators.any (fun d => pyIn "@property" d) then "property"
  else if pyEnds c.name "_response" && optIn "Response" c.returns_type then "response_factory"
  else if pyStarts c.name "on_" || pyStarts c.name "handle_" then "event_handler"
  else if c.decorators.any (fun d => pyIn "@validator" d || pyIn "@field_validator" d) then
    "validator"
  else if pyStarts c.name "is_" || pyStarts c.name "has_" then "boolean_check"
  else if pyStarts c.name "get_" then "getter"
  else if pyStarts c.name "__" && pyEnds c.name "__" then "special_method"
  else if optIn "Test" c.parent_class then "test_method"
  else "regular_function"

/-- The three-valued `require_verb_prefix` entry of a `CONTEXT_RULES`
row: Python `False`, `True` or the string `'optional'`. -/
inductive ReqVerb where
  | no : ReqVerb
  | yes : ReqVerb
  | optional : ReqVerb
deriving DecidableEq

/-- A `ContextAwareFunctionAnalyzer.CONTEXT_RULES` row (the fields the
checking logic reads; the informational pattern/example strings are
elided). -/
structure Rule where
  requireVerb : ReqVerb
  reason : String
deriving DecidableEq

/-- `ContextAwareFunctionAnalyzer.CONTEXT_RULES` as a lookup over the 13
context types (`context_type` is total over exactly these keys, so the
catch-all row is unreachable). -/
def contextRules (t : String) : Rule :=
  if t == "test_function" then ⟨ReqVerb.no, "Test functions use test_ as their prefix"⟩
  else if t == "cli_command" then ⟨ReqVerb.optional, "CLI commands often follow Rails-style naming"⟩
  else if t == "api_endpoint" then ⟨ReqVerb.yes, "API endpoints should clearly indicate the action"⟩
  else if t == "pytest_fixture" then ⟨ReqVerb.no, "Fixtures represent objects/resources"⟩
  else if t == "property" then ⟨ReqVerb.no, "Properties are attributes, not actions"⟩
  else if t == "response_factory" then ⟨ReqVerb.optional, "Factory pattern - the function name describes what it creates"⟩
  else if t == "event_handler" then ⟨ReqVerb.yes, "Event handlers already have action prefixes"⟩
  else if t == "validator" then ⟨ReqVerb.optional, "Validators describe constraints"⟩
  else if t == "boolean_check" then ⟨ReqVerb.yes, "Boolean checks already have verb prefixes"⟩
  else if t == "getter" then ⟨ReqVerb.yes, "Getters already have verb prefix"⟩
  else if t == "special_method" then ⟨ReqVerb.no, "Python special methods have fixed names"⟩
  else if t == "regular_function" then ⟨ReqVerb.yes, "Regular functions should indicate action"⟩
  else ⟨ReqVerb.yes, "Regular functions should indicate action"⟩

/-- The verb vocabulary of `ContextAwareFunctionAnalyzer._has_verb_prefix`. -/
def verbs : List String :=
  ["get", "set", "create", "update", "delete", "remove", "add",
   "process", "validate", "check", "verify", "ensure", "handle",
   "parse", "format", "convert", "transform", "build", "generate",
   "load", "save", "read", "write", "fetch", "send", "receive",
   "start", "stop", "run", "execute", "perform", "calculate",
   "is", "has", "can", "should", "will", "must"]

/-- `ContextAwareFunctionAnalyzer._has_verb_prefix`: the lowered name
starts with `verb + '_'` or equals a verb exactly. -/
def hasVerbStart (name : String) : Bool :=
  let nl := name.data.map Char.toLower
  verbs.any (fun v => listHasPre (v.data ++ ['_']) nl || nl == v.data)

/-- The default suggestions by context at the end of
`ContextAwareFunctionAnalyzer._suggest_name`. -/
def _default_suggestion (ct name : String) : Option String :=
  if ct == "regular_function" then some ("process_" ++ name)
  else if ct == "api_endpoint" then some ("handle_" ++ name)
  else none

/-- `ContextAwareFunctionAnalyzer._suggest_name`: no suggestion for
special methods and properties; otherwise a non-empty docstring may
override the per-context default (Python's `if context.docstring:` is
false for both `None` and the empty string). -/
def _suggest_name (c : FunctionContext) : Option String :=
  if context_type c == "special_method" || context_type c == "property" then none
  else
    match c.docstring with
    | some doc =>
      if !(doc == "") then
        let dl := pyLower doc
        if pyIn "return" dl || pyIn "get" dl then some ("get_" ++ c.name)
        else if pyIn "create" dl then some ("create_" ++ c.name)
        else if pyIn "check" dl || pyIn "validate" dl then some ("validate_" ++ c.name)
        else _default_suggestion (context_type c) c.name
      else _default_suggestion (context_type c) c.name
    | none => _default_suggestion (context_type c) c.name

/-- An issue record produced by
`ContextAwareFunctionAnalyzer._create_issue`. -/
structure FuncIssue where
  file : String
  line : Nat
  function : String
  context : String
  issue : String
  rule : Rule
  suggestion : Option String
  decorators : List String
  can_auto_fix : Bool
deriving DecidableEq

/-- `ContextAwareFunctionAnalyzer._create_issue`: the only message is
`"Missing verb prefix"`, and `can_auto_fix` is exactly the presence of a
suggestion. -/
def _create_func_issue (c : FunctionContext) (rule : Rule) : FuncIssue :=
  { file := c.file_path
    line := c.lineno
    function := c.name
    context := context_type c
    issue := "Missing verb prefix"
    rule := rule
    suggestion := _suggest_name c
    decorators := c.decorators
    can_auto_fix := (_suggest_name c).isSome }

/-- The trailing default check of
`ContextAwareFunctionAnalyzer._check_function`:
`if not self._has_verb_prefix(context.name) and rule['require_verb_prefix']`
(Python truthiness: `False` is falsy, `True` and `'optional'` truthy). -/
def _default_check (c : FunctionContext) (rule : Rule) : Option FuncIssue :=
  if !(hasVerbStart c.name) && !(rule.requireVerb == ReqVerb.no) then
    some (_create_func_issue c rule)
  else none

/-- `ContextAwareFunctionAnalyzer._check_function`, with the CLI style
supplied by the framework detector passed explicitly
(`_get_cli_style` returns `"verb_noun"` when no detector is present).
Paths that do not return inside the three `require_verb_prefix`
branches fall through to the default check, as in the Python control
flow. -/
def _check_function (c : FunctionContext) (cli_style : String) : Option FuncIssue :=
  let rule := contextRules (context_type c)
  match rule.requireVerb with
  | ReqVerb.no => none
  | ReqVerb.yes =>
    if context_type c == "boolean_check" then none
    else if context_type c == "getter" then none
    else if !(hasVerbStart c.name) then some (_create_func_issue c rule)
    else _default_check c rule
  | ReqVerb.optional =>
    if context_type c == "cli_command" then
      if cli_style == "rails" then none
      else _default_check c rule
    else if context_type c == "response_factory" then none
    else _default_check c rule

/-! ### Casing transform (`src/tools/migrate.py`, `_suggest_constant_name`) -/

/-- Is the first character a lowercase letter?  (Start of the `[a-z]+`
run of the first `re.sub` pattern.) -/
def lowerRunHead : List Char → Bool
  | ch :: _ => ch.isLower
  | [] => false

/-- One left-to-right pass of `re.sub('(.)([A-Z][a-z]+)', r'\1_\2', s)`:
at each position a match needs any character, an uppercase letter, and a
maximal nonempty lowercase run; scanning resumes after the match.  The
fuel argument (initially the length of the list) bounds the recursion;
every step consumes at least one character, so it never runs out. -/
def sub1Fuel : Nat → List Char → List Char
  | 0, l => l
  | _ + 1, [] => []
  | _ + 1, [ch] => [ch]
  | fuel + 1, c1 :: c2 :: rest =>
    if c2.isUpper && lowerRunHead rest then
      c1 :: '_' :: c2 :: (rest.takeWhile Char.isLower ++ sub1Fuel fuel (rest.dropWhile Char.isLower))
    else
      c1 :: sub1Fuel fuel (c2 :: rest)

/-- `re.sub('(.)([A-Z][a-z]+)', r'\1_\2', s)` on a char list. -/
def pySub1 (l : List Char) : List Char :=
  sub1Fuel l.length l

/-- `re.sub('([a-z0-9])([A-Z])', r'\1_\2', s)` on a char list:
left-to-right, non-overlapping, scanning resumes after each match. -/
def pySub2 : List Char → List Char
  | [] => []
  | [ch] => [ch]
  | c1 :: c2 :: rest =>
    if (c1.isLower || c1.isDigit) && c2.isUpper then
      c1 :: '_' :: c2 :: pySub2 rest
    else
      c1 :: pySub2 (c2 :: rest)

/-- `CodeMigrator._suggest_constant_name`: underscore insertion before
capital runs and after digit/lowercase-to-uppercase transitions, then
uppercasing. -/
def _suggest_constant_name (name : String) : String :=
  String.mk (((pySub2 (pySub1 name.data)).map Char.toUpper))

/-! ### File-level analysis with run-scoped counters

`analyze_file` in both analyzers wraps the per-construct work in a
`try`/`except` around reading and parsing; parsing is an external
capability, modelled by an `Except String` input (the caught exception
message).  The run-scoped counters mutated on `self.stats` are threaded
explicitly; the purely informational `exceptions_applied` /
`auto_classified` counters are elided, as no claim reads them. -/

/-- Python dict-style counter increment on an association list
(`stats['by_context'][k] = stats['by_context'].get(k, 0) + 1`). -/
def bump : List (String × Nat) → String → List (String × Nat)
  | [], k => [(k, 1)]
  | (k', n) :: rest, k =>
    if k' == k then (k', n + 1) :: rest else (k', n) :: bump rest k

/-- The counters of `ContextAwareFunctionAnalyzer.stats` read by claims. -/
structure FuncStats where
  total_functions : Nat
  by_context : List (String × Nat)
  violations : Nat
deriving DecidableEq

/-- A per-file output record of the function analyzer: either the
file-scoped parse-error dict or a naming issue. -/
inductive FuncRecord where
  | err (file msg : String) : FuncRecord
  | issue (i : FuncIssue) : FuncRecord
deriving DecidableEq

/-- `ContextAwareFunctionAnalyzer._analyze_node` over the walked
sequence of function contexts of a parsed file: per function, check,
collect the issue if any, and update the counters. -/
def _analyze_node_model (style : String) :
    List FunctionContext → FuncStats → List FuncRecord × FuncStats
  | [], stats => ([], stats)
  | c :: rest, stats =>
    let iss := _check_function c style
    let stats' : FuncStats :=
      { total_functions := stats.total_functions + 1
        by_context := bump stats.by_context (context_type c)
        violations := stats.violations + (if iss.isSome then 1 else 0) }
    let out := _analyze_node_model style rest stats'
    (match iss with
     | some i => FuncRecord.issue i :: out.1
     | none => out.1, out.2)

/-- `ContextAwareFunctionAnalyzer.analyze_file`: a parse failure yields
the single file-scoped error record and leaves the analyzer state
untouched. -/
def analyze_file_functions (parsed : Except String (List FunctionContext))
    (path style : String) (stats : FuncStats) : List FuncRecord × FuncStats :=
  match parsed with
  | Except.error e => ([FuncRecord.err path ("Failed to parse: " ++ e)], stats)
  | Except.ok funcs => _analyze_node_model style funcs stats

/-- The counters of `SmartConstantAnalyzer.stats` read by claims. -/
structure ConstStats where
  total_assignments : Nat
  by_type : List (String × Nat)
  violations : Nat
deriving DecidableEq

/-- A per-file output record of the constant analyzer. -/
inductive ConstRecord where
  | err (file msg : String) : ConstRecord
  | issue (i : ConstIssue) : ConstRecord
deriving DecidableEq

/-- `SmartConstantAnalyzer._analyze_module` over the module-level
assignment contexts of a parsed file. -/
def _analyze_module_model :
    List AssignmentContext → ConstStats → List ConstRecord × ConstStats
  | [], stats => ([], stats)
  | c :: rest, stats =>
    let iss := _check_assignment c
    let stats' : ConstStats :=
      { total_assignments := stats.total_assignments + 1
        by_type := bump stats.by_type (assignment_type c)
        violations := stats.violations + (if iss.isSome then 1 else 0) }
    let out := _analyze_module_model rest stats'
    (match iss with
     | some i => ConstRecord.issue i :: out.1
     | none => out.1, out.2)

/-- `SmartConstantAnalyzer.analyze_file`: same error contract as the
function analyzer. -/
def analyze_file_assignments (parsed : Except String (List AssignmentContext))
    (path : String) (stats : ConstStats) : List ConstRecord × ConstStats :=
  match parsed with
  | Except.error e => ([ConstRecord.err path ("Failed to parse: " ++ e)], stats)
  | Except.ok asgs => _analyze_module_model asgs stats

/-- Per-construct pipeline entry of the function analyzer: the assigned
category together with the evaluator's verdict under the active CLI
style (the only idiom flag either analyzer consults). -/
def analyze_function (c : FunctionContext) (cli_style : String) :
    String × Option FuncIssue :=
  (context_type c, _check_function c cli_style)

/-- Per-construct pipeline entry of the constant analyzer.  The analyzer
holds a framework detector but never consults it while classifying or
checking, so the style argument is unused by construction. -/
def analyze_assignment (c : AssignmentContext) (cli_style : String) :
    String × Option ConstIssue :=
  (assignment_type c, _check_assignment c)

/-! ### Concrete constructs used by the scenario claims -/

/-- Scenario B assignment `retryLimit = 3`. -/
def ctxRetry : AssignmentContext :=
  { target := "retryLimit", value_node := PyExpr.constant, value_str := "3",
    lineno := 10, file_path := "m.py" }

/-- Assignment `X = 3`: a single-uppercase-letter constant name. -/
def ctxX : AssignmentContext :=
  { target := "X", value_node := PyExpr.constant, value_str := "3",
    lineno := 11, file_path := "m.py" }

/-- Assignment `MAX_RETRIES = 3` (Scenario A shape). -/
def ctxMAX : AssignmentContext :=
  { target := "MAX_RETRIES", value_node := PyExpr.constant, value_str := "3",
    lineno := 12, file_path := "m.py" }

/-- Assignment `my_type = TypeVar("T")`: a typevar with a
non-conforming name. -/
def ctxTV : AssignmentContext :=
  { target := "my_type", value_node := PyExpr.call, value_str := "TypeVar(T)",
    lineno := 13, file_path := "m.py" }

/-- Fallback issue record used to project a known-`some` check result. -/
def dummyConstIssue : ConstIssue :=
  { file := "", line := 0, name := "", current_value := "", atype := "",
    issue := "", rule := ⟨"", ""⟩, auto_fixable := false }

/-- The issue the evaluator produces for `ctxTV`. -/
def issueTV : ConstIssue :=
  (_check_assignment ctxTV).getD dummyConstIssue

/-- The issue the evaluator produces for `ctxRetry`. -/
def issueRetry : ConstIssue :=
  (_check_assignment ctxRetry).getD dummyConstIssue

/-- The issue the evaluator produces for `ctxX`. -/
def issueX : ConstIssue :=
  (_check_assignment ctxX).getD dummyConstIssue

/-- Scenario D/E function: `def start():` decorated `@cli.command()`,
no docstring. -/
def ctxStart : FunctionContext :=
  { name := "start", decorators := ["@cli.command()"], returns_type := none,
    docstring := none, parent_class := none, is_async := false,
    lineno := 5, file_path := "cli.py" }

/-- A CLI command whose name is not in the verb vocabulary, without a
docstring. -/
def ctxServerNoDoc : FunctionContext :=
  { name := "server", decorators := ["@cli.command()"], returns_type := none,
    docstring := none, parent_class := none, is_async := false,
    lineno := 6, file_path := "cli.py" }

/-- The same CLI command with a docstring whose first line contains
`return`. -/
def ctxServerDoc : FunctionContext :=
  { ctxServerNoDoc with docstring := some "Return the server instance." }

/-- `test_get_user` decorated `@pytest.fixture` (precedence scenario). -/
def ctxFix : FunctionContext :=
  { name := "test_get_user", decorators := ["@pytest.fixture"], returns_type := none,
    docstring := none, parent_class := none, is_async := false,
    lineno := 7, file_path := "t.py" }

/-- An undecorated event handler `on_click`. -/
def ctxOn : FunctionContext :=
  { name := "on_click", decorators := [], returns_type := none,
    docstring := none, parent_class := none, is_async := false,
    lineno := 8, file_path := "ui.py" }

/-- An undecorated event handler `handle_request`. -/
def ctxHandle : FunctionContext :=
  { name := "handle_request", decorators := [], returns_type := none,
    docstring := none, parent_class := none, is_async := false,
    lineno := 9, file_path := "ui.py" }

/-- No digit of the list is immediately followed by a letter (the
adjacency that makes the second `re.sub` pattern of
`_suggest_constant_name` fire on an otherwise all-uppercase name). -/
def noDigitAlphaPair : List Char → Bool
  | c1 :: c2 :: rest => !(c1.isDigit && c2.isAlpha) && noDigitAlphaPair (c2 :: rest)
  | _ => true

/-- The first character of the string differs from `c` (false for the
empty string). -/
def headDiffers (v : String) (c : Char) : Bool :=
  match v.data with
  | [] => false
  | vc :: _ => !(vc == c)

/-! ### Helper lemmas -/

/-- Every issue `_check_assignment` emits carries
`auto_fixable = _can_auto_fix`. -/
theorem const_issue_auto_fix (c : AssignmentContext) (i : ConstIssue)
    (h : _check_assignment c = some i) : i.auto_fixable = _can_auto_fix c := by
  simp only [_check_assignment] at h
  split at h
  · exact Option.noConfusion h
  · split at h
    · split at h
      · cases h; rfl
      · exact Option.noConfusion h
    · split at h
      · split at h
        · cases h; rfl
        · exact Option.noConfusion h
      · split at h
        · split at h
          · cases h; rfl
          · exact Option.noConfusion h
        · exact Option.noConfusion h

/-- For an assignment category governed by the uppercase style, the
evaluator is silent exactly on names accepted by `_is_uppercase`. -/
theorem check_upper_none_iff (c : AssignmentContext)
    (hstyle : (typeRules (assignment_type c)).style = "uppercase")
    (hno : assignment_type c ≠ "unknown") :
    (_check_assignment c = none ↔ _is_uppercase c.target = true) := by
  have hno' : (assignment_type c == "unknown") = false := beq_eq_false_iff_ne.mpr hno
  simp only [_check_assignment, hno', hstyle]
  cases hu : _is_uppercase c.target <;> simp [hu]

/-- A list prefix test succeeds exactly when the hay splits as the
needle followed by a tail. -/
theorem listHasPre_iff_append (p l : List Char) :
    listHasPre p l = true ↔ ∃ t, l = p ++ t := by
  induction p generalizing l with
  | nil => simp [listHasPre]
  | cons a as ih =>
    cases l with
    | nil => simp [listHasPre]
    | cons b bs =>
      simp only [listHasPre, Bool.and_eq_true, beq_iff_eq, ih, List.cons_append, List.cons.injEq]
      constructor
      · rintro ⟨hab, t, ht⟩
        exact ⟨t, hab.symm, ht⟩
      · rintro ⟨t, hb, ht⟩
        exact ⟨hb.symm, t, ht⟩

/-- The verb-vocabulary scan fails on any name whose first character
differs from the first character of every verb. -/
theorem verbAny_false (L : List String) (c : Char) (t : List Char)
    (h : L.all (fun v => headDiffers v c) = true) :
    (L.any fun v => listHasPre (v.data ++ ['_']) (c :: t) || ((c :: t : List Char) == v.data)) = false := by
  induction L with
  | nil => rfl
  | cons v L ih =>
    rw [List.all_cons, Bool.and_eq_true] at h
    obtain ⟨hv, hL⟩ := h
    rw [List.any_cons, Bool.or_eq_false_iff]
    refine ⟨?_, ih hL⟩
    unfold headDiffers at hv
    cases hd : v.data with
    | nil => rw [hd] at hv; exact absurd hv (by simp)
    | cons vc vs =>
      rw [hd] at hv
      have hne : (vc == c) = false := by simpa using hv
      rw [Bool.or_eq_false_iff]
      constructor
      · rw [List.cons_append]
        simp only [listHasPre, hne, Bool.false_and]
      · have hnec : c ≠ vc := fun he => by rw [he] at hne; simp at hne
        exact beq_eq_false_iff_ne.mpr (fun he => by
          injection he with h1 h2
          exact hnec h1)

/-- A name starting with `on_` cannot also start with `test_`. -/
theorem pyStarts_on_not_test (n : String) (h : pyStarts n "on_" = true) :
    pyStarts n "test_" = false := by
  unfold pyStarts at *
  rw [listHasPre_iff_append] at h
  obtain ⟨t, ht⟩ := h
  rw [ht]
  rfl

/-- No verb of the vocabulary starts with `o`, so `on_` names fail the
verb-prefix test. -/
theorem hasVerbStart_on_false (n : String) (h : pyStarts n "on_" = true) :
    hasVerbStart n = false := by
  unfold pyStarts at h
  rw [listHasPre_iff_append] at h
  obtain ⟨t, ht⟩ := h
  simp only [hasVerbStart]
  rw [ht]
  have hdata : ("on_".data) = ['o', 'n', '_'] := rfl
  rw [hdata, List.map_append]
  have hml : (['o', 'n', '_'].map Char.toLower) = ['o', 'n', '_'] := by decide
  rw [hml]
  exact verbAny_false verbs 'o' ('n' :: '_' :: t.map Char.toLower) (by decide)

/-- `handle` is in the verb vocabulary, so `handle_` names pass the
verb-prefix test. -/
theorem hasVerbStart_handle_true (n : String) (h : pyStarts n "handle_" = true) :
    hasVerbStart n = true := by
  unfold pyStarts at h
  rw [listHasPre_iff_append] at h
  obtain ⟨t, ht⟩ := h
  simp only [hasVerbStart]
  rw [ht]
  apply List.any_eq_true.mpr
  refine ⟨"handle", by decide, ?_⟩
  have hdata : ("handle_".data) = ['h', 'a', 'n', 'd', 'l', 'e', '_'] := rfl
  rw [hdata, List.map_append]
  have hml : (['h', 'a', 'n', 'd', 'l', 'e', '_'].map Char.toLower)
      = ['h', 'a', 'n', 'd', 'l', 'e', '_'] := by decide
  rw [hml]
  have hpre : listHasPre ("handle".data ++ ['_'])
      (['h', 'a', 'n', 'd', 'l', 'e', '_'] ++ t.map Char.toLower) = true := by
    rw [listHasPre_iff_append]
    exact ⟨t.map Char.toLower, rfl⟩
  rw [hpre]
  rfl

/-- An ASCII character that is not lowercase is fixed by `toUpper`. -/
theorem toUpper_eq_self (ch : Char) (h : ch.isLower = false) : ch.toUpper = ch := by
  unfold Char.isLower at h
  unfold Char.toUpper
  rw [if_neg]
  intro hcond
  obtain ⟨h1, h2⟩ := hcond
  simp only [Char.toNat] at h1 h2
  rw [Bool.and_eq_false_iff] at h
  rcases h with h | h
  · rw [decide_eq_false_iff_not] at h
    apply h
    show (97:UInt32) ≤ ch.val
    rw [UInt32.le_def, BitVec.le_def]
    exact h1
  · rw [decide_eq_false_iff_not] at h
    apply h
    show ch.val ≤ (122:UInt32)
    rw [UInt32.le_def, BitVec.le_def]
    exact h2

/-- The first `re.sub` pass is the identity on lists without lowercase
letters (its pattern needs a nonempty lowercase run). -/
theorem sub1Fuel_id (fuel : Nat) (l : List Char)
    (h : ∀ ch ∈ l, ch.isLower = false) : sub1Fuel fuel l = l := by
  induction fuel generalizing l with
  | zero => rfl
  | succ fuel ih =>
    match l with
    | [] => rfl
    | [ch] => rfl
    | c1 :: c2 :: rest =>
      have hguard : (c2.isUpper && lowerRunHead rest) = false := by
        cases rest with
        | nil => simp [lowerRunHead]
        | cons r rs =>
          have hr := h r (by simp)
          simp [lowerRunHead, hr]
      simp only [sub1Fuel, hguard, Bool.false_eq_true, if_false]
      have := ih (c2 :: rest) (fun ch hch => h ch (List.mem_cons_of_mem c1 hch))
      rw [this]

/-- The second `re.sub` pass is the identity when there is no lowercase
letter and no digit immediately followed by a letter. -/
theorem pySub2_id (l : List Char)
    (hlow : ∀ ch ∈ l, ch.isLower = false)
    (hpair : noDigitAlphaPair l = true) : pySub2 l = l := by
  induction l with
  | nil => rfl
  | cons c1 tl ih =>
    match tl with
    | [] => rfl
    | c2 :: rest =>
      have hc1 : c1.isLower = false := hlow c1 (by simp)
      have hguard : ((c1.isLower || c1.isDigit) && c2.isUpper) = false := by
        rw [hc1]
        simp only [Bool.false_or]
        cases hd : c1.isDigit
        · simp
        · cases hu : c2.isUpper
          · simp
          · exfalso
            simp only [noDigitAlphaPair, Bool.and_eq_true] at hpair
            have : c2.isAlpha = true := by simp [Char.isAlpha, hu]
            rw [hd, this] at hpair
            simp at hpair
      simp only [pySub2, hguard, Bool.false_eq_true, if_false]
      have htl : ∀ ch ∈ c2 :: rest, ch.isLower = false :=
        fun ch hch => hlow ch (List.mem_cons_of_mem c1 hch)
      have hptl : noDigitAlphaPair (c2 :: rest) = true := by
        simp only [noDigitAlphaPair, Bool.and_eq_true] at hpair
        exact hpair.2
      rw [ih htl hptl]

/-! ### Claim theorems -/

/-- Claim C1, counterexample: for `def start():` decorated
`@cli.command()` with no docstring, classified `cli_command`, the
violation evaluator under `cliStyle = "verb_noun"` reports NO violation
at all — contradicting the claimed violation "missing verb prefix" and
suggestion `process_start`. -/
theorem c1_start_counterexample :
    context_type ctxStart = "cli_command" ∧
    _check_function ctxStart "verb_noun" = none :=
  ⟨by decide, by decide⟩

/-- Claim C1, amended: for `def start():` decorated `@cli.command()`
with no docstring, classified `cli_command`, under
`cliStyle = "verb_noun"` the evaluator reports no violation, because
`start` is itself in the recognized verb vocabulary (the exact-match
rule of the verb-prefix test), so the rename suggester is never
consulted. -/
theorem c1_start_amended :
    context_type ctxStart = "cli_command" ∧
    hasVerbStart "start" = true ∧
    _check_function ctxStart "verb_noun" = none :=
  ⟨by decide, by decide, by decide⟩

/-- Claim C2, counterexample: two CLI commands with the same category
`cli_command`, differing only in the docstring, produce violation
records with different `autoFixable` values (no docstring gives no
suggestion hence `false`; a docstring containing `return` yields a
`get_` suggestion hence `true`). -/
theorem c2_docstring_flips_autofix :
    context_type ctxServerNoDoc = "cli_command" ∧
    context_type ctxServerDoc = "cli_command" ∧
    (_check_function ctxServerNoDoc "verb_noun").map FuncIssue.can_auto_fix = some false ∧
    (_check_function ctxServerDoc "verb_noun").map FuncIssue.can_auto_fix = some true :=
  ⟨by decide, by decide, by decide, by decide⟩

/-- Claim C2, amended: on the assignment side auto-fixability is a pure
function of the semantic category — any two assignments with the same
category receive violation records with the same `autoFixable` value.
(On the function side `can_auto_fix` tracks the docstring-dependent
suggestion, as the counterexample shows.) -/
theorem c2_assignment_autofix_pure (c1 c2 : AssignmentContext) (i1 i2 : ConstIssue)
    (ht : assignment_type c1 = assignment_type c2)
    (h1 : _check_assignment c1 = some i1) (h2 : _check_assignment c2 = some i2) :
    i1.auto_fixable = i2.auto_fixable := by
  rw [const_issue_auto_fix c1 i1 h1, const_issue_auto_fix c2 i2 h2]
  unfold _can_auto_fix
  rw [ht]

/-- Claim C2, witness: `retryLimit = 3` and `X = 3` are both
category `constant`, both violate, and their records agree on
`autoFixable`. -/
theorem c2_assignment_autofix_pure_witness :
    assignment_type ctxRetry = assignment_type ctxX ∧
    _check_assignment ctxRetry = some issueRetry ∧
    _check_assignment ctxX = some issueX ∧
    issueRetry.auto_fixable = issueX.auto_fixable :=
  ⟨by decide, by decide, by decide,
   c2_assignment_autofix_pure ctxRetry ctxX issueRetry issueX (by decide) (by decide) (by decide)⟩

/-- Claim C3, counterexample: the assignment `X = 3` has category
`constant` and an all-uppercase single-letter name, yet the evaluator
reports "should be UPPER_CASE" — the claimed acceptance of single
uppercase letters fails (`_is_uppercase` requires an underscore or
length greater than one). -/
theorem c3_single_letter_counterexample :
    assignment_type ctxX = "constant" ∧
    pyIsUpper "X" = true ∧
    (_check_assignment ctxX).map ConstIssue.issue = some "should be UPPER_CASE" :=
  ⟨by decide, by decide, by decide⟩

/-- Claim C3, amended: for every assignment whose category has the
uppercase style (`constant`, `collection_constant`, `regex`), the
evaluator reports no violation iff the name has at least one letter, no
lowercase letter, and moreover contains an underscore or is longer than
one character; otherwise it reports "should be UPPER_CASE".  A single
uppercase letter such as `X` is therefore rejected. -/
theorem c3_uppercase_rule (c : AssignmentContext)
    (hstyle : assignment_type c ∈ ["constant", "collection_constant", "regex"]) :
    _check_assignment c = none ↔
      (pyIsUpper c.target && (c.target.data.contains '_' || decide (1 < c.target.length))) = true := by
  have hfac : _is_uppercase c.target
      = (pyIsUpper c.target && (c.target.data.contains '_' || decide (1 < c.target.length))) := by
    unfold _is_uppercase
    cases pyIsUpper c.target <;> simp
  rw [← hfac]
  simp only [List.mem_cons, List.not_mem_nil, or_false] at hstyle
  rcases hstyle with h1 | h1 | h1 <;>
    exact check_upper_none_iff c (by rw [h1]; decide) (by rw [h1]; decide)

/-- Claim C3, witness: `MAX_RETRIES = 3` is a constant accepted with no
violation. -/
theorem c3_uppercase_rule_witness :
    assignment_type ctxMAX ∈ ["constant", "collection_constant", "regex"] ∧
    _check_assignment ctxMAX = none :=
  ⟨by decide, (c3_uppercase_rule ctxMAX (by decide)).mpr (by decide)⟩

/-- Claim C4, counterexample: `A_2B` is all-uppercase (with a digit)
and contains an underscore, yet the casing transform returns `A_2_B`,
not the input — the second substitution fires on the digit-to-uppercase
transition. -/
theorem c4_digit_counterexample :
    (∀ ch ∈ "A_2B".data, ch.isUpper ∨ ch.isDigit ∨ ch = '_') ∧
    '_' ∈ "A_2B".data ∧
    _suggest_constant_name "A_2B" = "A_2_B" ∧
    _suggest_constant_name "A_2B" ≠ "A_2B" :=
  ⟨by decide, by decide, by decide, by decide⟩

/-- Claim C4, amended: the uppercase-suggestion casing transform is the
identity on every name without lowercase letters (in particular every
already-UPPER_CASE name with underscores and digits) in which no digit
is immediately followed by a letter. -/
theorem c4_transform_id (s : String)
    (h1 : ∀ ch ∈ s.data, ch.isLower = false)
    (h2 : '_' ∈ s.data)
    (h3 : noDigitAlphaPair s.data = true) :
    _suggest_constant_name s = s := by
  unfold _suggest_constant_name pySub1
  rw [sub1Fuel_id s.data.length s.data h1, pySub2_id s.data h1 h3]
  have hmap : s.data.map Char.toUpper = s.data := by
    conv_rhs => rw [← List.map_id s.data]
    exact List.map_congr_left (fun ch hch => by rw [toUpper_eq_self ch (h1 ch hch)]; rfl)
  rw [hmap]

/-- Claim C4, witness: `MAX_RETRIES` is returned unchanged. -/
theorem c4_transform_id_witness :
    (∀ ch ∈ "MAX_RETRIES".data, ch.isLower = false) ∧
    '_' ∈ "MAX_RETRIES".data ∧
    noDigitAlphaPair "MAX_RETRIES".data = true ∧
    _suggest_constant_name "MAX_RETRIES" = "MAX_RETRIES" :=
  ⟨by decide, by decide, by decide,
   c4_transform_id "MAX_RETRIES" (by decide) (by decide) (by decide)⟩

/-- Claim C5: every violation record the evaluator produces for an
assignment classified `typevar`, `singleton` or `logger` has
`autoFixable = false`. -/
theorem c5_context_sensitive_never_autofix (c : AssignmentContext) (i : ConstIssue)
    (hmem : assignment_type c ∈ ["typevar", "singleton", "logger"])
    (h : _check_assignment c = some i) : i.auto_fixable = false := by
  rw [const_issue_auto_fix c i h]
  simp only [List.mem_cons, List.not_mem_nil, or_false] at hmem
  unfold _can_auto_fix
  rcases hmem with h1 | h1 | h1 <;> rw [h1] <;> decide

/-- Claim C5, witness: `my_type = TypeVar(...)` is a typevar whose
naming violation is reported with `autoFixable = false`. -/
theorem c5_context_sensitive_never_autofix_witness :
    assignment_type ctxTV ∈ ["typevar", "singleton", "logger"] ∧
    _check_assignment ctxTV = some issueTV ∧
    issueTV.auto_fixable = false :=
  ⟨by decide, by decide,
   c5_context_sensitive_never_autofix ctxTV issueTV (by decide) (by decide)⟩

/-- Claim C6: any function whose name starts with `test_` is classified
`test_function`, regardless of every other field (decorators included) —
the `test_` rule is the first rule tried. -/
theorem c6_test_prefix_precedence (c : FunctionContext)
    (h : pyStarts c.name "test_" = true) :
    context_type c = "test_function" := by
  simp [context_type, h]

/-- Claim C6, witness: `test_get_user` decorated `@pytest.fixture`
classifies as `test_function`, not `pytest_fixture`. -/
theorem c6_test_prefix_precedence_witness :
    pyStarts ctxFix.name "test_" = true ∧
    context_type ctxFix = "test_function" :=
  ⟨by decide, c6_test_prefix_precedence ctxFix (by decide)⟩

/-- Claim C7: when parsing fails, `analyze_file` of either analyzer
returns exactly one file-scoped error record carrying the file path and
the parse message, contributes no construct classifications and no
violations (the run counters are unchanged), and the overall scan
continues (the result is a value, never an exception). -/
theorem c7_parse_failure_isolated (path e style : String)
    (fs : FuncStats) (cs : ConstStats) :
    analyze_file_functions (Except.error e) path style fs
      = ([FuncRecord.err path ("Failed to parse: " ++ e)], fs) ∧
    analyze_file_assignments (Except.error e) path cs
      = ([ConstRecord.err path ("Failed to parse: " ++ e)], cs) ∧
    (analyze_file_functions (Except.error e) path style fs).1.length = 1 ∧
    (analyze_file_assignments (Except.error e) path cs).1.length = 1 :=
  ⟨rfl, rfl, rfl, rfl⟩

/-- Claim C8: `retryLimit = 3` is classified `constant`; the evaluator
reports "should be UPPER_CASE" with `autoFixable = true`, and the
migrator's casing transform suggests `RETRY_LIMIT`. -/
theorem c8_retry_limit_scenario :
    assignment_type ctxRetry = "constant" ∧
    (_check_assignment ctxRetry).map (fun i => (i.issue, i.auto_fixable))
      = some ("should be UPPER_CASE", true) ∧
    _suggest_constant_name "retryLimit" = "RETRY_LIMIT" :=
  ⟨by decide, by decide, by decide⟩

/-- Claim C9: the classifier component of the per-construct pipeline is
independent of the idiom flags — the assigned category is identical for
any two CLI styles, on both the function and the assignment side (the
flags reach only the violation evaluator). -/
theorem c9_classification_flag_independent :
    (∀ (c : FunctionContext) (s1 s2 : String),
      (analyze_function c s1).1 = (analyze_function c s2).1) ∧
    (∀ (a : AssignmentContext) (s1 s2 : String),
      (analyze_assignment a s1).1 = (analyze_assignment a s2).1) :=
  ⟨fun _ _ _ => rfl, fun _ _ _ => rfl⟩

/-- Claim C10: every `on_` function not captured by an earlier
classifier rule (no `test_` prefix — impossible for `on_` names anyway —
no CLI/routing/fixture/property decorator, and not a response factory)
is classified `event_handler` and always receives the "Missing verb
prefix" violation, because `on` is not in the verb vocabulary; names
starting with `handle_` never receive this violation under any style. -/
theorem c10_on_flagged_handle_not :
    (∀ (c : FunctionContext) (style : String),
      pyStarts c.name "on_" = true →
      (c.decorators.any (fun d =>
        pyIn "@cli.command" d || pyIn "@app.command" d || pyIn "@click.command" d)) = false →
      (c.decorators.any (fun d => pyIn "@app." d || pyIn "@router." d)) = false →
      (c.decorators.any (fun d => pyIn "@pytest.fixture" d)) = false →
      (c.decorators.any (fun d => pyIn "@property" d)) = false →
      (pyEnds c.name "_response" && optIn "Response" c.returns_type) = false →
      context_type c = "event_handler" ∧
      _check_function c style = some (_create_func_issue c (contextRules "event_handler")) ∧
      (_create_func_issue c (contextRules "event_handler")).issue = "Missing verb prefix") ∧
    (∀ (c : FunctionContext) (style : String),
      pyStarts c.name "handle_" = true → _check_function c style = none) := by
  constructor
  · intro c style hon hcli hapi hfix hprop hresp
    have htest := pyStarts_on_not_test c.name hon
    have hct : context_type c = "event_handler" := by
      unfold context_type
      rw [htest, hcli, hapi, hfix, hprop, hresp, hon]
      simp
    have hv : hasVerbStart c.name = false := hasVerbStart_on_false c.name hon
    refine ⟨hct, ?_, rfl⟩
    unfold _check_function
    rw [hct, hv]
    rfl
  · intro c style h
    have hv : hasVerbStart c.name = true := hasVerbStart_handle_true c.name h
    unfold _check_function _default_check
    simp only [hv, Bool.not_true, Bool.false_and, Bool.false_eq_true, if_false, ite_self]
    cases (contextRules (context_type c)).requireVerb <;> rfl

/-- Claim C10, witness: the undecorated `on_click` is an
`event_handler` flagged "Missing verb prefix", while `handle_request`
is not flagged. -/
theorem c10_on_flagged_handle_not_witness :
    context_type ctxOn = "event_handler" ∧
    (_check_function ctxOn "verb_noun").map FuncIssue.issue = some "Missing verb prefix" ∧
    _check_function ctxHandle "verb_noun" = none := by
  obtain ⟨h1, h2, h3⟩ := c10_on_flagged_handle_not.1 ctxOn "verb_noun"
    (by decide) (by decide) (by decide) (by decide) (by decide) (by decide)
  refine ⟨h1, ?_, c10_on_flagged_handle_not.2 ctxHandle "verb_noun" (by decide)⟩
  rw [h2, Option.map_some', h3]

end GrammarOps
